import Mathlib

/-!
Shallow embedding of `src/recipe.py` (BiteByType): the recipe-acquisition
adapters, the scrape extraction, and the restaurant (companion) lookup,
together with proofs settling the spec claims.

Backends are modelled as explicit functions from the request parameters an
adapter constructs to an optional HTTP response; a `none` response stands
for a transport exception (`requests.RequestException`).  Each adapter
returns, alongside its result, the list of requests it issued, so that
claims about retries and call counts are statable.  A Python expression
that can raise is given the result type `PyResult`, with `PyResult.exc`
naming the exception class.
-/

/-- Result of running a Python expression: a value, or a raised exception
(identified by its class name). -/
inductive PyResult (α : Type) where
  | ok : α → PyResult α
  | exc : String → PyResult α
deriving DecidableEq, Repr

/-- An HTTP response: a status code and an already-parsed body. -/
structure HttpOf (α : Type) where
  status : Nat
  body : α
deriving DecidableEq, Repr

/-- `fetch_api` (recipe.py lines 49-59): returns the parsed JSON body on
status 200, `None` on any other status, and `None` when the request
raises (`requests.RequestException`), modelled as a `none` response. -/
def fetch_api {α : Type} (resp : Option (HttpOf α)) : Option α :=
  match resp with
  | none => none
  | some r => if r.status = 200 then some r.body else none

/-- `PERSONALITY_TO_CUISINE` (recipe.py lines 31-41), as an association
list in source order. -/
def PERSONALITY_TO_CUISINE : List (String × List String) :=
  [ ("Openness", ["Japanese", "Indian", "Mediterranean"]),
    ("Conscientiousness", ["Balanced", "Low-Carb", "Mediterranean"]),
    ("Extraversion", ["BBQ", "Mexican", "Italian"]),
    ("Agreeableness", ["Vegetarian", "Comfort Food", "Vegan"]),
    ("Neuroticism", ["Healthy", "Mediterranean", "Comfort Food"]),
    ("Adventurous", ["Thai", "Korean", "Ethiopian"]),
    ("Analytical", ["French", "Greek", "Fusion"]),
    ("Creative", ["Molecular Gastronomy", "Experimental", "Fusion"]),
    ("Traditional", ["American", "British", "German"]) ]

/-- Python dict lookup `PERSONALITY_TO_CUISINE.get(personality, default)`. -/
def personalityLookup (personality : String) : Option (List String) :=
  (PERSONALITY_TO_CUISINE.find? (fun kv => kv.1 == personality)).map (fun kv => kv.2)

/-- `PERSONALITY_TO_CUISINE.get(personality, ["Italian"])[0]`
(recipe.py line 65).  Every table entry is a non-empty list and the
default is non-empty, so the `[0]` index never faults; `headD ""` is
therefore a faithful rendering of `[0]` here. -/
def personalityCuisine (personality : String) : String :=
  ((personalityLookup personality).getD ["Italian"]).headD ""

/-- Query parameters of the `recipes/random` request built by
`get_recipe_by_personality` (recipe.py lines 71-77). -/
structure RandomParams where
  apiKey : String
  number : Nat
  diet : String
  cuisine : String
  instructionsRequired : Bool
deriving DecidableEq, Repr

/-- The Spoonacular API key, an opaque secret. -/
def SPOONACULAR_API_KEY : String := "SPOONACULAR_API_KEY"

/-- The request parameters `get_recipe_by_personality` constructs for a
given personality and diet (recipe.py lines 65-77). -/
def personalityParams (personality diet : String) : RandomParams :=
  { apiKey := SPOONACULAR_API_KEY
    number := 1
    diet := diet
    cuisine := personalityCuisine personality
    instructionsRequired := true }

/-- A raw Spoonacular recipe object as the adapter sees it: a JSON
dictionary whose keys may each be absent.  Only the fields the claims
touch are modelled; the adapter never inspects or rewrites any of them,
it passes the object through unchanged. -/
structure RawRecipe where
  title : Option String
  extendedIngredients : Option (List String)
  nutrition_nutrients : Option (List String)
  cuisine : Option String
  cuisines : Option (List String)
deriving DecidableEq, Repr

/-- Body of a `recipes/random` response: the `recipes` key may be absent
(`none`) or hold a list of recipe objects. -/
structure RandomBody where
  recipes : Option (List RawRecipe)
deriving DecidableEq, Repr

/-- `get_recipe_by_personality` (recipe.py lines 61-83).  Builds the
request parameters, issues exactly one `fetch_api` call, and evaluates
`data.get("recipes", [None])[0] if data else None`: when `data` is
`None` the result is `None`; when the `recipes` key is absent the Python
default `[None]` makes `[0]` yield `None`; when `recipes` is a non-empty
list the first element is returned; when `recipes` is the empty list,
`[][0]` raises `IndexError`.  Returns the result together with the list
of requests issued. -/
def get_recipe_by_personality (personality diet : String)
    (backend : RandomParams → Option (HttpOf RandomBody)) :
    PyResult (Option RawRecipe) × List RandomParams :=
  let params := personalityParams personality diet
  let data := fetch_api (backend params)
  let res : PyResult (Option RawRecipe) :=
    match data with
    | none => .ok none
    | some body =>
      match body.recipes with
      | none => .ok none
      | some [] => .exc "IndexError"
      | some (r :: _) => .ok (some r)
  (res, [params])

/-- A Yelp business object.  `phone` stands for the extra fields a real
response carries beyond name, rating and address; `get_restaurants`
never strips them. -/
structure Business where
  name : String
  rating : String
  address1 : Option String
  phone : String
deriving DecidableEq, Repr

/-- Query parameters of the Yelp `businesses/search` request
(recipe.py lines 223-227). -/
structure YelpParams where
  term : String
  location : String
  limit : Nat
deriving DecidableEq, Repr

/-- Body of a Yelp search response: the `businesses` key may be absent. -/
structure YelpBody where
  businesses : Option (List Business)
deriving DecidableEq, Repr

/-- `get_restaurants` (recipe.py lines 210-238).  Always issues one
request with `term = cuisine`, `location = location`, `limit = 5`; on a
200 response returns `response.json().get("businesses", [])` unchanged,
on any other status or a transport exception returns the empty list.
Returns the venue list together with the list of requests issued. -/
def get_restaurants (location cuisine : String)
    (backend : YelpParams → Option (HttpOf YelpBody)) :
    List Business × List YelpParams :=
  let params : YelpParams := { term := cuisine, location := location, limit := 5 }
  let res : List Business :=
    match backend params with
    | none => []
    | some r => if r.status = 200 then r.body.businesses.getD [] else []
  (res, [params])

/-- `recipe.get("cuisine", "")` at the companion-lookup call site
(recipe.py line 380). -/
def restaurantSearchTerm (r : RawRecipe) : String :=
  r.cuisine.getD ""

/-- The companion-lookup call site (recipe.py lines 378-380): the lookup
is invoked only when the location string is truthy (non-empty); a blank
location skips the call entirely, so no request is issued. -/
def companionCallSite (location : String) (r : RawRecipe)
    (backend : YelpParams → Option (HttpOf YelpBody)) :
    Option (List Business × List YelpParams) :=
  if location = "" then none
  else some (get_restaurants location (restaurantSearchTerm r) backend)

/-- The `img.card__img` element of a recipe page: its `data-src` and
`src` attributes, each possibly absent. -/
structure ImgTag where
  data_src : Option String
  src : Option String
deriving DecidableEq, Repr

/-- A parsed AllRecipes recipe detail page, as the selectors of
`scrape_allrecipes` see it.  Text fields are already stripped, matching
`get_text(strip=True)` / `.text.strip()`. -/
structure ScrapedPage where
  h1 : Option String
  card_img : Option ImgTag
  ingredient_items : List String
  step_blocks : List String
  nutrition_table : Option (List (List String))
deriving DecidableEq, Repr

/-- The record `scrape_allrecipes` returns (recipe.py lines 203-209).
`instructions` is the list of matched step blocks — the code never joins
them — and `nutrition` is a list of already-formatted strings. -/
structure ScrapedRecipe where
  title : String
  image : String
  ingredients : List String
  instructions : List String
  nutrition : List String
deriving DecidableEq, Repr

/-- Body of the nutrition-facts loop (recipe.py lines 196-201): given
the facts accumulated so far and the `td` cells of one `tr`, append the
string `name: value` when there are exactly two cells, otherwise leave
the accumulator unchanged. -/
def nfStep (acc : List String) (columns : List String) : List String :=
  match columns with
  | [a, b] => acc ++ [a ++ ": " ++ b]
  | _ => acc

/-- The nutrition-facts loop (recipe.py lines 195-201): fold `nfStep`
over the rows of the nutrition table, starting from the empty list. -/
def nutritionFacts (rows : List (List String)) : List String :=
  rows.foldl nfStep []

/-- The record construction of lines 172-209 of `scrape_allrecipes`,
given an already-parsed recipe detail page.  Title falls back to
`"Unknown Recipe"` when no `h1` exists; the image URL is
`image_tag.get("data-src", image_tag.get("src", ""))` when the image
element exists and `""` otherwise; ingredients and instructions are the
stripped texts of their selectors; nutrition comes from the two-column
rows of the nutrition table, empty when the table is absent.  Note: in
the source as shipped these lines are unreachable — the module never
imports `BeautifulSoup`, so execution raises `NameError` at line 154
before them (see `scrape_allrecipes` below); this definition embeds
what the lines construct, which is what the shape claims about the
record's fields are about. -/
def extract_recipe (page : ScrapedPage) : ScrapedRecipe :=
  { title := page.h1.getD "Unknown Recipe"
    image :=
      match page.card_img with
      | none => ""
      | some t => t.data_src.getD (t.src.getD "")
    ingredients := page.ingredient_items
    instructions := page.step_blocks
    nutrition := nutritionFacts (page.nutrition_table.getD []) }

/-- `scrape_allrecipes` (recipe.py lines 144-209) as it actually runs.
The module imports only `streamlit`, `requests` and `os`: the names
`BeautifulSoup` (used at lines 154 and 172) and `random` (line 164) are
never defined.  A non-200 category-page fetch returns `None` at line
152; on a 200 response, line 154 `BeautifulSoup(response.text, "lxml")`
raises `NameError` unconditionally, so no later line — link selection,
detail fetch, or the record construction of lines 172-209 — is ever
reached.  The input is the category-page response (status and raw HTML
text). -/
def scrape_allrecipes (catResp : HttpOf String) :
    PyResult (Option ScrapedRecipe) :=
  if catResp.status ≠ 200 then PyResult.ok none
  else PyResult.exc "NameError"

/-! ### Concrete fixtures used by counterexamples and witnesses -/

/-- A Yelp business with the given name and a non-address extra field. -/
def mkBiz (n : String) : Business :=
  { name := n, rating := "4.5", address1 := some ("addr " ++ n), phone := "555-0100" }

/-- Seven businesses, as in the spec scenario where the backend ignores
or exceeds the requested limit. -/
def sevenBusinesses : List Business :=
  [mkBiz "B1", mkBiz "B2", mkBiz "B3", mkBiz "B4", mkBiz "B5", mkBiz "B6", mkBiz "B7"]

/-- A Yelp backend answering every request with 200 and seven businesses. -/
def yelp7Backend : YelpParams → Option (HttpOf YelpBody) :=
  fun _ => some { status := 200, body := { businesses := some sevenBusinesses } }

/-- A Yelp backend answering every request with 200 and one business. -/
def yelp1Backend : YelpParams → Option (HttpOf YelpBody) :=
  fun _ => some { status := 200, body := { businesses := some [mkBiz "Solo"] } }

/-- A Spoonacular backend answering 200 with an empty `recipes` list, as
happens when the diet and cuisine filters match nothing. -/
def emptyRecipesBackend : RandomParams → Option (HttpOf RandomBody) :=
  fun _ => some { status := 200, body := { recipes := some [] } }

/-- A backend on which every request raises a transport exception. -/
def failingRecipeBackend : RandomParams → Option (HttpOf RandomBody) :=
  fun _ => none

/-- A raw recipe whose payload has a `cuisines` list but no `cuisine`
key, as Spoonacular responses are shaped. -/
def mexicanRecipe : RawRecipe :=
  { title := some "Tacos", extendedIngredients := some ["tortilla"],
    nutrition_nutrients := none, cuisine := none, cuisines := some ["Mexican"] }

/-- A backend returning 200 with `mexicanRecipe` as the sole result. -/
def mexicanBackend : RandomParams → Option (HttpOf RandomBody) :=
  fun _ => some { status := 200, body := { recipes := some [mexicanRecipe] } }

/-- A raw recipe whose payload omits the ingredient and nutrition keys. -/
def bareRecipe : RawRecipe :=
  { title := some "Mystery Stew", extendedIngredients := none,
    nutrition_nutrients := none, cuisine := none, cuisines := none }

/-- A backend returning 200 with `bareRecipe` as the sole result. -/
def bareRecipeBackend : RandomParams → Option (HttpOf RandomBody) :=
  fun _ => some { status := 200, body := { recipes := some [bareRecipe] } }

/-- A scraped recipe page with two step blocks and a nutrition table
holding one two-column row and one three-column row. -/
def samplePage : ScrapedPage :=
  { h1 := some "Tofu Skewers", card_img := none,
    ingredient_items := ["1 block tofu"],
    step_blocks := ["Step one.", "Step two."],
    nutrition_table := some [["Calories", "240"], ["Total Fat", "10g", "13%"]] }

/-- A scraped recipe page missing the heading, the image, the ingredient
items, the step blocks and the nutrition table. -/
def degradedPage : ScrapedPage :=
  { h1 := none, card_img := none, ingredient_items := [],
    step_blocks := [], nutrition_table := none }

/-! ### Helper lemmas -/

/-- One step of the nutrition loop splits off the accumulator. -/
theorem nfStep_eq_append (acc columns : List String) :
    nfStep acc columns = acc ++ nfStep [] columns := by
  rcases columns with _ | ⟨a, _ | ⟨b, _ | _⟩⟩ <;> simp [nfStep]

/-- Folding the nutrition loop from any accumulator prepends it. -/
theorem foldl_nfStep_acc (rows : List (List String)) (acc : List String) :
    rows.foldl nfStep acc = acc ++ rows.foldl nfStep [] := by
  induction rows generalizing acc with
  | nil => simp
  | cons r rs ih =>
    rw [List.foldl_cons, List.foldl_cons, ih (nfStep acc r), ih (nfStep [] r),
      nfStep_eq_append acc r, List.append_assoc]

/-- The nutrition loop on a cons: the head row's contribution (if any)
followed by the rest. -/
theorem nutritionFacts_cons (r : List String) (rs : List (List String)) :
    nutritionFacts (r :: rs) = nfStep [] r ++ nutritionFacts rs := by
  rw [nutritionFacts, List.foldl_cons, foldl_nfStep_acc]
  rfl

/-- The nutrition loop equals keeping exactly the two-cell rows, in row
order, each formatted as `name: value`. -/
theorem nutritionFacts_eq_filter_map (rows : List (List String)) :
    nutritionFacts rows
      = (rows.filter (fun r => r.length = 2)).map
          (fun r => r.headD "" ++ ": " ++ r.tail.headD "") := by
  induction rows with
  | nil => rfl
  | cons r rs ih =>
    rw [nutritionFacts_cons, ih]
    rcases r with _ | ⟨a, _ | ⟨b, _ | _⟩⟩ <;>
      simp [nfStep, List.filter]

/-! ### Claim theorems -/

/-- C1: evaluated at the failing input — a 200 response whose `recipes`
list is present but empty — `get_recipe_by_personality` raises
`IndexError` (`[][0]`) instead of returning the not-found sentinel its
own comment promises; by contrast a non-success status and a missing
`recipes` key do return the sentinel. -/
theorem personality_empty_recipes_raises :
    (get_recipe_by_personality "Openness" "Vegan" emptyRecipesBackend).1
        = PyResult.exc "IndexError"
    ∧ (get_recipe_by_personality "Openness" "Vegan"
        (fun _ => some { status := 503, body := { recipes := some [] } })).1
        = PyResult.ok none
    ∧ (get_recipe_by_personality "Openness" "Vegan"
        (fun _ => some { status := 200, body := { recipes := none } })).1
        = PyResult.ok none := by
  refine ⟨rfl, ?_, rfl⟩
  simp [get_recipe_by_personality, fetch_api]

/-- C2 counterexample: on a 200 response carrying seven businesses,
`get_restaurants` returns all seven, unreduced — more than 5, and not
restricted to name, rating and address. -/
theorem restaurants_seven_returned_uncapped :
    (get_restaurants "Austin, TX" "Thai" yelp7Backend).1 = sevenBusinesses
    ∧ (get_restaurants "Austin, TX" "Thai" yelp7Backend).1.length = 7
    ∧ ¬ (get_restaurants "Austin, TX" "Thai" yelp7Backend).1.length ≤ 5 := by
  refine ⟨rfl, rfl, by decide⟩

/-- C2 amended: the only capping is the `limit = 5` request parameter;
`get_restaurants` performs no client-side truncation or field reduction
and returns the backend's `businesses` list unchanged on a 200. -/
theorem restaurants_limit_is_request_param_only (location cuisine : String)
    (bs : List Business) (backend : YelpParams → Option (HttpOf YelpBody)) :
    (get_restaurants location cuisine backend).2
        = [{ term := cuisine, location := location, limit := 5 }]
    ∧ (get_restaurants location cuisine
        (fun _ => some { status := 200, body := { businesses := some bs } })).1
        = bs := by
  exact ⟨rfl, by simp [get_restaurants]⟩

/-- C3: the outbound random-recipe request uses the first entry of the
personality's mapped cuisine list, `"Italian"` for unknown keys, and the
diet label verbatim; in particular `"Extraversion"` yields `"BBQ"`. -/
theorem personality_request_construction (personality diet : String)
    (cs : List String) :
    ((personality, cs) ∈ PERSONALITY_TO_CUISINE →
      (personalityParams personality diet).cuisine = cs.headD "")
    ∧ (personalityLookup personality = none →
      (personalityParams personality diet).cuisine = "Italian")
    ∧ (personalityParams personality diet).diet = diet
    ∧ (personalityParams "Extraversion" diet).cuisine = "BBQ" := by
  refine ⟨?_, ?_, rfl, rfl⟩
  · intro h
    simp only [PERSONALITY_TO_CUISINE, List.mem_cons, List.not_mem_nil,
      or_false, Prod.mk.injEq] at h
    rcases h with ⟨h1, h2⟩ | ⟨h1, h2⟩ | ⟨h1, h2⟩ | ⟨h1, h2⟩ | ⟨h1, h2⟩ |
      ⟨h1, h2⟩ | ⟨h1, h2⟩ | ⟨h1, h2⟩ | ⟨h1, h2⟩ <;> subst h1 <;> subst h2 <;> rfl
  · intro h
    simp [personalityParams, personalityCuisine, h]

/-- Witness for C3: `"Extraversion"` requests cuisine `"BBQ"`, and an
unknown trait falls back to `"Italian"`. -/
theorem personality_request_construction_witness :
    (personalityParams "Extraversion" "Vegan").cuisine
        = ["BBQ", "Mexican", "Italian"].headD ""
    ∧ (personalityParams "Ambivert" "Vegan").cuisine = "Italian" :=
  ⟨(personality_request_construction "Extraversion" "Vegan"
      ["BBQ", "Mexican", "Italian"]).1 (by decide),
   (personality_request_construction "Ambivert" "Vegan" []).2.1 (by decide)⟩

/-- C4 counterexample: when the filtered call fails (transport error),
the personality adapter issues exactly one request — which carried the
diet filter — and returns the sentinel; no second, unfiltered fallback
call exists. -/
theorem personality_failed_call_not_retried :
    (get_recipe_by_personality "Openness" "Vegan" failingRecipeBackend).2.length = 1
    ∧ ¬ (get_recipe_by_personality "Openness" "Vegan" failingRecipeBackend).2.length = 2
    ∧ (get_recipe_by_personality "Openness" "Vegan" failingRecipeBackend).1
        = PyResult.ok none
    ∧ (get_recipe_by_personality "Openness" "Vegan" failingRecipeBackend).2.map
        (fun p => p.diet) = ["Vegan"] := by
  refine ⟨rfl, by decide, rfl, rfl⟩

/-- C4 amended: every invocation of the personality adapter issues
exactly the one diet-and-cuisine-filtered request, whatever the backend
does; nothing is retried and no fallback call is made. -/
theorem personality_single_request (personality diet : String)
    (backend : RandomParams → Option (HttpOf RandomBody)) :
    (get_recipe_by_personality personality diet backend).2
        = [personalityParams personality diet] := rfl

/-- C5 counterexample: on a page with two step blocks and a two-column
nutrition row, the record's instructions are the two separate strings —
not one newline-joined string — and the nutrition entry is the single
formatted string `Calories: 240`, not a name/amount/unit triple. -/
theorem scrape_instructions_kept_as_list :
    (extract_recipe samplePage).instructions = ["Step one.", "Step two."]
    ∧ (extract_recipe samplePage).instructions ≠ ["Step one.\nStep two."]
    ∧ (extract_recipe samplePage).nutrition = ["Calories: 240"] := by
  refine ⟨rfl, by decide, rfl⟩

/-- C5 amended: the scraped record's instructions are exactly the list
of matched step blocks, unjoined, and its nutrition is the list of
`name: value` strings formatted from the two-column rows of the table
(empty when the table is absent); no unit field is produced. -/
theorem scrape_record_field_shapes (page : ScrapedPage) :
    (extract_recipe page).instructions = page.step_blocks
    ∧ (extract_recipe page).nutrition
        = nutritionFacts (page.nutrition_table.getD []) := ⟨rfl, rfl⟩

/-- C6 counterexample: the personality adapter returns the raw backend
recipe unchanged, carrying no `cuisine` key even though its `cuisines`
list says `"Mexican"`; the companion call site then searches with the
empty string — which is no table cuisine, not the source's cuisine, and
none of the documented defaults. -/
theorem found_recipe_carries_no_cuisine :
    (get_recipe_by_personality "Extraversion" "Vegan" mexicanBackend).1
        = PyResult.ok (some mexicanRecipe)
    ∧ mexicanRecipe.cuisine = none
    ∧ restaurantSearchTerm mexicanRecipe = ""
    ∧ (companionCallSite "Austin, TX" mexicanRecipe yelp7Backend).map
        (fun x => x.2)
        = some [{ term := "", location := "Austin, TX", limit := 5 }]
    ∧ (PERSONALITY_TO_CUISINE.all (fun kv => !(kv.2.contains ""))) = true
    ∧ restaurantSearchTerm mexicanRecipe ≠ "Mexican"
    ∧ (["Italian", "General", "Unknown"].contains
        (restaurantSearchTerm mexicanRecipe)) = false := by
  refine ⟨rfl, rfl, rfl, by decide, by decide, by decide, by decide⟩

/-- C6 amended: the adapter passes the backend's first recipe through
unchanged, attaching no cuisine, and the companion call site searches
with the record's literal `cuisine` key if present and the empty string
otherwise — neither the personality table nor the `cuisines` field is
consulted there. -/
theorem personality_result_passthrough (personality diet : String)
    (r : RawRecipe) (rest : List RawRecipe)
    (backend : RandomParams → Option (HttpOf RandomBody))
    (h : backend (personalityParams personality diet)
        = some { status := 200, body := { recipes := some (r :: rest) } }) :
    (get_recipe_by_personality personality diet backend).1
        = PyResult.ok (some r)
    ∧ restaurantSearchTerm r = r.cuisine.getD "" := by
  exact ⟨by simp [get_recipe_by_personality, fetch_api, h], rfl⟩

/-- Witness for the amended C6, at the concrete Mexican-recipe backend. -/
theorem personality_result_passthrough_witness :
    (get_recipe_by_personality "Extraversion" "Vegan" mexicanBackend).1
        = PyResult.ok (some mexicanRecipe)
    ∧ restaurantSearchTerm mexicanRecipe = mexicanRecipe.cuisine.getD "" :=
  personality_result_passthrough "Extraversion" "Vegan" mexicanRecipe []
    mexicanBackend rfl

/-- C7 counterexample: a 200 response whose sole recipe omits the
ingredient and nutrition keys is returned as found with those fields
missing — the adapter does not normalize them to empty sequences. -/
theorem found_recipe_missing_ingredient_keys :
    (get_recipe_by_personality "Openness" "Vegan" bareRecipeBackend).1
        = PyResult.ok (some bareRecipe)
    ∧ bareRecipe.extendedIngredients = none
    ∧ bareRecipe.nutrition_nutrients = none := ⟨rfl, rfl, rfl⟩

/-- C7 amended: the scrape adapter's record always carries list-valued
ingredients, instructions and nutrition — empty when the page lacks the
markers — and a title defaulting to `Unknown Recipe` when the page has
no heading; the API adapters return raw payloads whose keys may be
missing. -/
theorem scrape_record_fields_default (page : ScrapedPage)
    (h1 : page.h1 = none) (h2 : page.nutrition_table = none) :
    (extract_recipe page).title = "Unknown Recipe"
    ∧ (extract_recipe page).ingredients = page.ingredient_items
    ∧ (extract_recipe page).instructions = page.step_blocks
    ∧ (extract_recipe page).nutrition = [] := by
  refine ⟨?_, rfl, rfl, ?_⟩
  · simp [extract_recipe, h1]
  · simp [extract_recipe, h2, nutritionFacts]

/-- Witness for the amended C7, at a fully degraded page. -/
theorem scrape_record_fields_default_witness :
    (extract_recipe degradedPage).title = "Unknown Recipe"
    ∧ (extract_recipe degradedPage).ingredients = degradedPage.ingredient_items
    ∧ (extract_recipe degradedPage).instructions = degradedPage.step_blocks
    ∧ (extract_recipe degradedPage).nutrition = [] :=
  scrape_record_fields_default degradedPage rfl rfl

/-- C8 counterexample: called directly with a blank location,
`get_restaurants` still issues one request, and with a backend that
answers it, still returns venues — the function has no blank-location
guard of its own. -/
theorem restaurants_blank_location_still_requests :
    (get_restaurants "" "Thai" yelp1Backend).2.length = 1
    ∧ ¬ (get_restaurants "" "Thai" yelp1Backend).2.length = 0
    ∧ (get_restaurants "" "Thai" yelp1Backend).1 ≠ [] := by
  refine ⟨rfl, by decide, by decide⟩

/-- C8 amended: the blank-location no-op lives at the call site, which
skips the lookup entirely when the location is empty; the lookup
function itself always issues exactly one request. -/
theorem companion_blank_guard_at_call_site (location cuisine : String)
    (r : RawRecipe) (backend : YelpParams → Option (HttpOf YelpBody)) :
    companionCallSite "" r backend = none
    ∧ (get_restaurants location cuisine backend).2.length = 1 := by
  exact ⟨by simp [companionCallSite], rfl⟩

/-- C9: the normalization is not total — it can never complete even
once, let alone run twice.  Because `BeautifulSoup` is never imported,
`scrape_allrecipes` evaluated at the failing input — any category page
fetched with status 200 — raises `NameError` at line 154, before the
normalization of lines 172-209 is reached; only the non-200 path, which
returns the sentinel at line 152, avoids the crash. -/
theorem scrape_normalization_never_runs :
    scrape_allrecipes { status := 200, body := "<html>category</html>" }
        = PyResult.exc "NameError"
    ∧ scrape_allrecipes { status := 404, body := "<html>err</html>" }
        = PyResult.ok none := ⟨rfl, rfl⟩

/-- C10: a nutrition-table row contributes to the record's nutrition
list iff it has exactly two cells; contributing rows appear in document
order, each formatted from its two cells. -/
theorem nutrition_rows_two_cells_only (page : ScrapedPage)
    (rows : List (List String)) (h : page.nutrition_table = some rows) :
    (extract_recipe page).nutrition
      = (rows.filter (fun r => r.length = 2)).map
          (fun r => r.headD "" ++ ": " ++ r.tail.headD "") := by
  simp [extract_recipe, h, nutritionFacts_eq_filter_map]

/-- Witness for C10: on the sample page, the two-column row is kept and
the three-column row is skipped. -/
theorem nutrition_rows_two_cells_only_witness :
    (extract_recipe samplePage).nutrition
      = ([["Calories", "240"], ["Total Fat", "10g", "13%"]].filter
          (fun r => r.length = 2)).map
          (fun r => r.headD "" ++ ": " ++ r.tail.headD "") :=
  nutrition_rows_two_cells_only samplePage
    [["Calories", "240"], ["Total Fat", "10g", "13%"]] rfl
